import Mathlib

/-!
Shallow embedding of the `TransactionContext` subsystem declared in
`src/RestServer/AvocadoServer.h` (the `arangodb::TransactionContext` class,
lines 494-630 of that file).

Only the class declaration is part of the sources; the member-function
bodies (`TransactionContext.cpp`) are not under `src/`.  Wherever a body is
missing, the corresponding definition below is modelled from the spec
(`spec.md`) and its doc comment says so explicitly.  Object identity
(ditch / builder / string-buffer instances) is modelled by natural-number
ids handed out by explicit allocation counters, so that "same instance"
is id equality and "a fresh allocation happened" is a counter increment.
-/

/-- An entry of a collection's global ditch list, as scanned by the
compactor.  Modelled from the spec: a `DocumentDitch` is a pin record per
(context, collection) pair, inserted into the collection's global ditch
list; `did` is the ditch instance identity, `owner` the id of the owning
context, `dcid` the collection id. -/
structure GlobalDitch where
  did : Nat
  owner : Nat
  dcid : Nat
deriving DecidableEq

/-- The process-wide ditch state.  Modelled from the spec: the
per-collection global ditch lists, here one flat list of entries tagged
with their collection id, together with the allocation counter that hands
out fresh ditch identities. -/
structure DitchGlobal where
  entries : List GlobalDitch
  nextDitch : Nat
deriving DecidableEq

/-- A `basics::StringBuffer` scratch object: an instance identity and a
capacity.  Modelled from the spec: `leaseStringBuffer(minSize)` returns a
buffer "resized up to at least minSize". -/
structure StringBuffer where
  bid : Nat
  cap : Nat
deriving DecidableEq

/-- A `velocypack::Options` value: the pluggable custom type handler plus
encode/decode flags.  Modelled from the spec: per-transaction encode/decode
configuration; the concrete flag set stands in for the library's flags. -/
structure VPackOptions where
  customTypeHandlerId : Option Nat
  buildUnindexedArrays : Bool
  buildUnindexedObjects : Bool
  escapeForwardSlashes : Bool
deriving DecidableEq

/-- The state of one `TransactionContext`
(`src/RestServer/AvocadoServer.h` lines 525-627).  Fields mirror the
declared data members: `vocbase` is `_vocbase` (the accessor
`vocbase() const { return _vocbase; }` is the field projection), `ditches`
is the local map `_ditches : unordered_map<cid, DocumentDitch*>` as an
association list, `builders` is the `_builders` free list (a stack),
`stringBuffer` the single `_stringBuffer` slot (`none` both before first
use and while borrowed, exactly like the `unique_ptr` being null),
`options` / `dumpOptions` the two independent `_options` / `_dumpOptions`
values, and `transactionResult` the `_transaction` record, `none` until
`storeTransactionResult` has run.  `ctxId` names the context instance,
`nextBuilder` / `nextBuffer` are the allocation counters of the model, and
`violationReported` records that a contract violation was reported. -/
structure TransactionContext where
  ctxId : Nat
  vocbase : Nat
  ditches : List (Nat × Nat)
  builders : List Nat
  nextBuilder : Nat
  stringBuffer : Option StringBuffer
  nextBuffer : Nat
  options : VPackOptions
  dumpOptions : VPackOptions
  transactionResult : Option (Nat × Bool)
  violationReported : Bool
deriving DecidableEq

/-- Default runtime options of a freshly constructed context.  Modelled
from the spec: runtime encode/decode configuration. -/
def defaultOptions : VPackOptions :=
  { customTypeHandlerId := none
    buildUnindexedArrays := false
    buildUnindexedObjects := false
    escapeForwardSlashes := true }

/-- Default dump options of a freshly constructed context.  Modelled from
the spec: the dump variant differs from the runtime variant only in
emission policy and shares no mutable state with it. -/
def defaultDumpOptions : VPackOptions :=
  { customTypeHandlerId := none
    buildUnindexedArrays := false
    buildUnindexedObjects := false
    escapeForwardSlashes := false }

/-- Modelled from the spec: the constructor
`explicit TransactionContext(TRI_vocbase_t*)` (declaration at
`src/RestServer/AvocadoServer.h` line 533) binds the context to a database
identity; the ditch map, the builder free list and the string-buffer slot
start empty, and no transaction result is stored yet. -/
def createContext (i db : Nat) : TransactionContext :=
  { ctxId := i
    vocbase := db
    ditches := []
    builders := []
    nextBuilder := 0
    stringBuffer := none
    nextBuffer := 0
    options := defaultOptions
    dumpOptions := defaultDumpOptions
    transactionResult := none
    violationReported := false }

/-- The local ditch lookup `ditch(TRI_voc_cid_t)` (declaration at
`src/RestServer/AvocadoServer.h` lines 553-555: "return the ditch for a
collection; this will return a nullptr if no ditch exists").  Modelled
from the spec: local lookup only, never allocates. -/
def ditch (c : TransactionContext) (k : Nat) : Option Nat :=
  c.ditches.lookup k

/-- Modelled from the spec: `orderDitch(collection)` (declaration at
`src/RestServer/AvocadoServer.h` lines 548-551: "this will create one if
none exists. if no ditch can be created, the function will return a
nullptr!").  Idempotent within a context: if the local map already holds a
ditch for the collection it is returned unchanged; otherwise, when the
allocation succeeds (`allocOk`, the environment's memory condition), a
fresh ditch is allocated, inserted into the collection's global ditch list
and into the context's local map, and returned; on allocation failure the
result is `none` and nothing changes. -/
def orderDitch (g : DitchGlobal) (c : TransactionContext) (k : Nat)
    (allocOk : Bool) : Option Nat × TransactionContext × DitchGlobal :=
  match c.ditches.lookup k with
  | some d => (some d, c, g)
  | none =>
      if allocOk then
        (some g.nextDitch,
          { c with ditches := (k, g.nextDitch) :: c.ditches },
          { g with
              nextDitch := g.nextDitch + 1
              entries := ⟨g.nextDitch, c.ctxId, k⟩ :: g.entries })
      else
        (none, c, g)

/-- Run a sequence of `orderDitch` calls on one collection `k`, one call
per allocation flag, collecting every returned result. -/
def orderDitchSeq :
    DitchGlobal → TransactionContext → Nat → List Bool →
      List (Option Nat) × TransactionContext × DitchGlobal
  | g, c, _, [] => ([], c, g)
  | g, c, k, b :: bs =>
      let r := orderDitch g c k b
      let s := orderDitchSeq r.2.2 r.2.1 k bs
      (r.1 :: s.1, s.2.1, s.2.2)

/-- Run a sequence of `orderDitch` calls on arbitrary collections, one
call per (collection id, allocation flag) instruction. -/
def runOrders :
    DitchGlobal → TransactionContext → List (Nat × Bool) →
      TransactionContext × DitchGlobal
  | g, c, [] => (c, g)
  | g, c, (k, b) :: rest =>
      let r := orderDitch g c k b
      runOrders r.2.2 r.2.1 rest

/-- Modelled from the spec: the destructor `~TransactionContext()`
(declaration at `src/RestServer/AvocadoServer.h` lines 537-538) releases
every still-registered ditch of the context, removing it from the
collection's global ditch list. -/
def destroyContext (g : DitchGlobal) (c : TransactionContext) : DitchGlobal :=
  { g with
      entries :=
        g.entries.filter fun d => !((c.ditches.map Prod.snd).contains d.did) }

/-- Modelled from the spec: the simulated compaction scan — the number of
active ditches in collection `k`'s global ditch list. -/
def scanDitches (g : DitchGlobal) (k : Nat) : Nat :=
  (g.entries.filter fun d => d.dcid == k).length

/-- Modelled from the spec: the part of a compaction scan attributable to
one context — the number of active ditches in collection `k`'s global
ditch list owned by context `i`. -/
def scanOwned (g : DitchGlobal) (k : Nat) (i : Nat) : Nat :=
  (g.entries.filter fun d => d.dcid == k && d.owner == i).length

/-- Every global ditch entry attributable to context `c` is registered in
`c`'s local ditch map. -/
def ownedRegistered (g : DitchGlobal) (c : TransactionContext) : Prop :=
  ∀ d ∈ g.entries, d.owner = c.ctxId → d.did ∈ c.ditches.map Prod.snd

/-- Modelled from the spec: `leaseBuilder()` (declaration at
`src/RestServer/AvocadoServer.h` lines 563-564) pops a pooled
`velocypack::Builder` from the `_builders` free list if it is non-empty,
and constructs a new one otherwise.  Returns the leased builder's identity
together with the updated context. -/
def leaseBuilder (c : TransactionContext) : Nat × TransactionContext :=
  match c.builders with
  | b :: rest => (b, { c with builders := rest })
  | [] => (c.nextBuilder, { c with nextBuilder := c.nextBuilder + 1 })

/-- Modelled from the spec: `returnBuilder(b)` (declaration at
`src/RestServer/AvocadoServer.h` lines 566-567) pushes the returned
builder back onto the `_builders` free list. -/
def returnBuilder (c : TransactionContext) (b : Nat) : TransactionContext :=
  { c with builders := b :: c.builders }

/-- Run `n` consecutive `leaseBuilder()` / `returnBuilder()` pairs — no
two borrows ever outstanding simultaneously — collecting the identity
leased by each pair. -/
def leaseReturnRun : TransactionContext → Nat → List Nat × TransactionContext
  | c, 0 => ([], c)
  | c, n + 1 =>
      let r := leaseBuilder c
      let s := leaseReturnRun (returnBuilder r.2 r.1) n
      (r.1 :: s.1, s.2)

/-- Modelled from the spec: `leaseStringBuffer(minSize)` (declaration at
`src/RestServer/AvocadoServer.h` line 558) returns the single cached
buffer, resized up to at least `minSize`, when the `_stringBuffer` slot
holds one, emptying the slot (ownership moves to the borrower, as
`unique_ptr::release` does); when the slot is empty — before first use or
while the cached buffer is borrowed — it allocates a distinct fresh
buffer. -/
def leaseStringBuffer (c : TransactionContext) (minSize : Nat) :
    StringBuffer × TransactionContext :=
  match c.stringBuffer with
  | some b =>
      ({ b with cap := max b.cap minSize }, { c with stringBuffer := none })
  | none =>
      (⟨c.nextBuffer, minSize⟩, { c with nextBuffer := c.nextBuffer + 1 })

/-- Modelled from the spec: `returnStringBuffer(b)` (declaration at
`src/RestServer/AvocadoServer.h` line 561) stores the returned buffer back
into the single cached slot. -/
def returnStringBuffer (c : TransactionContext) (b : StringBuffer) :
    TransactionContext :=
  { c with stringBuffer := some b }

/-- The accessor `getVPackOptions()` (declaration at
`src/RestServer/AvocadoServer.h` lines 569-570).  Modelled from the spec:
the runtime encode/decode configuration. -/
def getVPackOptions (c : TransactionContext) : VPackOptions :=
  c.options

/-- The accessor `getVPackOptionsForDump()` (declaration at
`src/RestServer/AvocadoServer.h` lines 572-573).  Modelled from the spec:
the separately configured, independently mutable dump options. -/
def getVPackOptionsForDump (c : TransactionContext) : VPackOptions :=
  c.dumpOptions

/-- Modelled from the spec: a mutation applied through the value returned
by `getVPackOptions()` updates the context's `_options` member in place. -/
def setVPackOptions (c : TransactionContext) (o : VPackOptions) :
    TransactionContext :=
  { c with options := o }

/-- Modelled from the spec: a mutation applied through the value returned
by `getVPackOptionsForDump()` updates the context's `_dumpOptions` member
in place. -/
def setVPackOptionsForDump (c : TransactionContext) (o : VPackOptions) :
    TransactionContext :=
  { c with dumpOptions := o }

/-- Modelled from the spec: `storeTransactionResult(id, hasFailedOperations)`
(declared `noexcept` at `src/RestServer/AvocadoServer.h` line 577) records
the transaction's final outcome exactly once.  The error channel of the
result type models exception-style failure; it is never used: the first
call stores the pair, and a second call on the same context is a contract
violation that is reported immediately (`violationReported`) without
overwriting the stored outcome — and without an exception-style jump,
matching the `noexcept` declaration. -/
def storeTransactionResult (c : TransactionContext) (tid : Nat)
    (hasFailedOperations : Bool) : Except String TransactionContext :=
  match c.transactionResult with
  | none =>
      Except.ok { c with transactionResult := some (tid, hasFailedOperations) }
  | some _ =>
      Except.ok { c with violationReported := true }

/-- The two ways a factory can hand its product to the caller: a raw
pointer whose lifetime the caller must manage and which may be null, or a
value the caller fully owns outright. -/
inductive HandlerReturn where
  | unmanagedPointer
  | ownedValue
deriving DecidableEq

/-- How `createCustomTypeHandler(database, resolver)` returns its product,
read off the declaration at `src/RestServer/AvocadoServer.h` lines
540-543: `static arangodb::velocypack::CustomTypeHandler*
createCustomTypeHandler(TRI_vocbase_t*, CollectionNameResolver const*)`,
documented there as "factory to create a custom type handler, not
managed" — a raw, caller-managed, nullable pointer. -/
def createCustomTypeHandler_return : HandlerReturn :=
  HandlerReturn.unmanagedPointer

/-- A sample empty global ditch state. -/
def g0 : DitchGlobal :=
  { entries := [], nextDitch := 0 }

/-- A sample freshly constructed context (context id 1, database 42). -/
def c0 : TransactionContext :=
  createContext 1 42

/-- The sample context after a first `storeTransactionResult 9 true`. -/
def c0a : TransactionContext :=
  { c0 with transactionResult := some (9, true) }

/-- The sample context after a second, violating call. -/
def c0b : TransactionContext :=
  { c0a with violationReported := true }

/-- A sample context whose string-buffer slot is free and holds the cached
buffer of identity 0 and capacity 16. -/
def c1 : TransactionContext :=
  { c0 with stringBuffer := some ⟨0, 16⟩, nextBuffer := 1 }

theorem orderDitch_existing (g : DitchGlobal) (c : TransactionContext)
    (k : Nat) (b : Bool) (d : Nat) (h : c.ditches.lookup k = some d) :
    orderDitch g c k b = (some d, c, g) := by
  simp [orderDitch, h]

theorem orderDitch_fresh (g : DitchGlobal) (c : TransactionContext)
    (k : Nat) (h : c.ditches.lookup k = none) :
    orderDitch g c k true =
      (some g.nextDitch,
        { c with ditches := (k, g.nextDitch) :: c.ditches },
        { g with
            nextDitch := g.nextDitch + 1
            entries := ⟨g.nextDitch, c.ctxId, k⟩ :: g.entries }) := by
  simp [orderDitch, h]

theorem orderDitchSeq_existing (k d : Nat) :
    ∀ (bs : List Bool) (g : DitchGlobal) (c : TransactionContext),
      c.ditches.lookup k = some d →
      orderDitchSeq g c k bs = (List.replicate bs.length (some d), c, g) := by
  intro bs
  induction bs with
  | nil => intro g c _; simp [orderDitchSeq]
  | cons b bs ih =>
      intro g c h
      simp [orderDitchSeq, orderDitch_existing g c k b d h, ih g c h,
        List.replicate_succ]

theorem orderDitch_owned (g : DitchGlobal) (c : TransactionContext)
    (k : Nat) (b : Bool) (h : ownedRegistered g c) :
    ownedRegistered (orderDitch g c k b).2.2 (orderDitch g c k b).2.1 := by
  unfold orderDitch
  cases hk : c.ditches.lookup k with
  | some d => exact h
  | none =>
      cases b with
      | false => exact h
      | true =>
          intro e he hown
          simp only [List.map_cons]
          rcases List.mem_cons.mp he with he | he
          · subst he
            exact List.mem_cons_self _ _
          · exact List.mem_cons_of_mem _ (h e he hown)

theorem orderDitch_ctxId (g : DitchGlobal) (c : TransactionContext)
    (k : Nat) (b : Bool) :
    (orderDitch g c k b).2.1.ctxId = c.ctxId := by
  unfold orderDitch
  cases c.ditches.lookup k with
  | some d => rfl
  | none => cases b <;> rfl

theorem runOrders_owned :
    ∀ (instrs : List (Nat × Bool)) (g : DitchGlobal) (c : TransactionContext),
      ownedRegistered g c →
      ownedRegistered (runOrders g c instrs).2 (runOrders g c instrs).1 := by
  intro instrs
  induction instrs with
  | nil => intro g c h; exact h
  | cons p rest ih =>
      intro g c h
      exact ih _ _ (orderDitch_owned g c p.1 p.2 h)

theorem runOrders_ctxId :
    ∀ (instrs : List (Nat × Bool)) (g : DitchGlobal) (c : TransactionContext),
      (runOrders g c instrs).1.ctxId = c.ctxId := by
  intro instrs
  induction instrs with
  | nil => intro g c; rfl
  | cons p rest ih =>
      intro g c
      exact (ih _ _).trans (orderDitch_ctxId g c p.1 p.2)

theorem destroy_scanOwned (g : DitchGlobal) (c : TransactionContext)
    (k : Nat) (h : ownedRegistered g c) :
    scanOwned (destroyContext g c) k c.ctxId = 0 := by
  unfold scanOwned destroyContext
  rw [List.length_eq_zero, List.filter_eq_nil_iff]
  intro d hd
  rcases List.mem_filter.mp hd with ⟨hdg, hpass⟩
  intro hb
  simp only [Bool.and_eq_true, beq_iff_eq] at hb
  have hmem : d.did ∈ c.ditches.map Prod.snd :=
    h d hdg hb.2
  simp at hpass
  rcases List.mem_map.mp hmem with ⟨p, hp, hsnd⟩
  exact hpass p.1 (hsnd ▸ hp)

/-- C1: `orderDitch` is idempotent per (context, collection): for every
context and collection, a sequence of `orderDitch` calls on that
collection within that context — the first succeeding — creates exactly
one ditch (the allocation counter advances by exactly one), every call in
the sequence returns the same ditch instance, and that instance is
registered both in the context's local map and in the collection's global
ditch list; later calls return the existing instance without allocating. -/
theorem orderDitch_idempotent (g : DitchGlobal) (c : TransactionContext)
    (k : Nat) (bs : List Bool) (h : ditch c k = none) :
    (orderDitchSeq g c k (true :: bs)).1 =
        List.replicate (bs.length + 1) (some g.nextDitch) ∧
    (orderDitchSeq g c k (true :: bs)).2.2.nextDitch = g.nextDitch + 1 ∧
    ditch (orderDitchSeq g c k (true :: bs)).2.1 k = some g.nextDitch ∧
    GlobalDitch.mk g.nextDitch c.ctxId k ∈
      (orderDitchSeq g c k (true :: bs)).2.2.entries := by
  have h' : c.ditches.lookup k = none := h
  have hfirst := orderDitch_fresh g c k h'
  have hlook :
      List.lookup k ((k, g.nextDitch) :: c.ditches) = some g.nextDitch := by
    simp [List.lookup]
  simp only [orderDitchSeq, hfirst]
  rw [orderDitchSeq_existing k g.nextDitch bs _ _ hlook]
  refine ⟨?_, rfl, ?_, ?_⟩
  · simp [List.replicate_succ]
  · exact hlook
  · exact List.mem_cons_self _ _

theorem orderDitch_idempotent_wit :
    ditch c0 5 = none ∧
    ((orderDitchSeq g0 c0 5 (true :: [true, false])).1 =
        List.replicate ([true, false].length + 1) (some g0.nextDitch) ∧
      (orderDitchSeq g0 c0 5 (true :: [true, false])).2.2.nextDitch =
        g0.nextDitch + 1 ∧
      ditch (orderDitchSeq g0 c0 5 (true :: [true, false])).2.1 5 =
        some g0.nextDitch ∧
      GlobalDitch.mk g0.nextDitch c0.ctxId 5 ∈
        (orderDitchSeq g0 c0 5 (true :: [true, false])).2.2.entries) :=
  ⟨by decide, orderDitch_idempotent g0 c0 5 [true, false] (by decide)⟩

/-- C2: when ditch allocation fails, `orderDitch` returns the absent
result (`none`) for every collection that has no ditch yet, leaving both
the context and the global ditch state unchanged; the absence of a result
is the only failure signal the caller observes — the function's type has
no exception-style channel at all. -/
theorem orderDitch_allocFail (g : DitchGlobal) (c : TransactionContext)
    (k : Nat) (h : ditch c k = none) :
    orderDitch g c k false = (none, c, g) := by
  have h' : c.ditches.lookup k = none := h
  simp [orderDitch, h']

theorem orderDitch_allocFail_wit :
    ditch c0 7 = none ∧ orderDitch g0 c0 7 false = (none, c0, g0) :=
  ⟨by decide, orderDitch_allocFail g0 c0 7 (by decide)⟩

/-- C3: after a context ends, no collection's global ditch list contains a
ditch attributable to that context: starting from any global state holding
no entry attributed to the context, after any sequence of `orderDitch`
calls followed by context destruction, a simulated compaction scan of any
collection observes zero ditches owned by the context. -/
theorem contextDestroy_clears (g : DitchGlobal) (c : TransactionContext)
    (instrs : List (Nat × Bool)) (k : Nat)
    (hg : ∀ d ∈ g.entries, d.owner ≠ c.ctxId) :
    scanOwned
        (destroyContext (runOrders g c instrs).2 (runOrders g c instrs).1)
        k c.ctxId = 0 := by
  have h0 : ownedRegistered g c := fun d hd hown => absurd hown (hg d hd)
  have h1 := runOrders_owned instrs g c h0
  have h2 :=
    destroy_scanOwned (runOrders g c instrs).2 (runOrders g c instrs).1 k h1
  rwa [runOrders_ctxId] at h2

theorem contextDestroy_clears_wit :
    (∀ d ∈ g0.entries, d.owner ≠ c0.ctxId) ∧
    scanOwned
        (destroyContext (runOrders g0 c0 [(7, true), (7, true), (8, false)]).2
          (runOrders g0 c0 [(7, true), (7, true), (8, false)]).1)
        7 c0.ctxId = 0 :=
  ⟨by decide,
    contextDestroy_clears g0 c0 [(7, true), (7, true), (8, false)] 7
      (by decide)⟩

theorem leaseReturnRun_pooled :
    ∀ (n b : Nat) (rest : List Nat) (c : TransactionContext),
      c.builders = b :: rest →
      leaseReturnRun c n = (List.replicate n b, c) := by
  intro n
  induction n with
  | zero => intro b rest c _; simp [leaseReturnRun]
  | succ m ih =>
      intro b rest c h
      obtain ⟨i, db, dit, bld, nb, sbuf, nbf, o, dopt, tr, vr⟩ := c
      have hb : bld = b :: rest := h
      subst hb
      simp only [leaseReturnRun, leaseBuilder, returnBuilder]
      rw [ih b rest _ rfl]
      simp [List.replicate_succ]

/-- C4: for every context and every number of consecutive
`leaseBuilder()` / `returnBuilder()` pairs — no two borrows ever
outstanding simultaneously — at most one underlying builder object is
allocated over the whole sequence (the allocation counter advances by at
most one), and every pair leases the same pooled instance. -/
theorem leaseBuilder_singleAllocation (c : TransactionContext) (n : Nat) :
    ∃ b, (leaseReturnRun c n).1 = List.replicate n b ∧
      (leaseReturnRun c n).2.nextBuilder ≤ c.nextBuilder + 1 := by
  cases hb : c.builders with
  | cons b rest =>
      refine ⟨b, ?_⟩
      rw [leaseReturnRun_pooled n b rest c hb]
      exact ⟨rfl, Nat.le_succ _⟩
  | nil =>
      cases n with
      | zero => exact ⟨0, rfl, Nat.le_succ _⟩
      | succ m =>
          refine ⟨c.nextBuilder, ?_⟩
          obtain ⟨i, db, dit, bld, nb, sbuf, nbf, o, dopt, tr, vr⟩ := c
          have hb' : bld = [] := hb
          subst hb'
          simp only [leaseReturnRun, leaseBuilder, returnBuilder]
          rw [leaseReturnRun_pooled m nb [] _ rfl]
          exact ⟨by simp [List.replicate_succ], Nat.le_refl _⟩

/-- C5: the context caches at most one string buffer: when the cached
slot is free, a lease returns that very buffer resized to at least the
requested size; two nested leases (the first still outstanding) yield two
distinct buffer instances, because the second lease finds the slot
borrowed and allocates fresh; and after a buffer is returned, a later
lease reuses exactly that instance. -/
theorem leaseStringBuffer_slot (c cr : TransactionContext)
    (b br : StringBuffer) (n₁ n₂ n₃ : Nat)
    (hs : c.stringBuffer = some b) (hb : b.bid < c.nextBuffer) :
    (leaseStringBuffer c n₁).1.bid = b.bid ∧
    n₁ ≤ (leaseStringBuffer c n₁).1.cap ∧
    (leaseStringBuffer c n₁).1.bid ≠
      (leaseStringBuffer (leaseStringBuffer c n₁).2 n₂).1.bid ∧
    (leaseStringBuffer (returnStringBuffer cr br) n₃).1.bid = br.bid := by
  refine ⟨?_, ?_, ?_, ?_⟩
  · simp [leaseStringBuffer, hs]
  · simp [leaseStringBuffer, hs]
  · simp only [leaseStringBuffer, hs]
    exact Nat.ne_of_lt hb
  · simp [leaseStringBuffer, returnStringBuffer]

theorem leaseStringBuffer_slot_wit :
    (c1.stringBuffer = some ⟨0, 16⟩ ∧
      (⟨0, 16⟩ : StringBuffer).bid < c1.nextBuffer) ∧
    ((leaseStringBuffer c1 64).1.bid = (⟨0, 16⟩ : StringBuffer).bid ∧
      64 ≤ (leaseStringBuffer c1 64).1.cap ∧
      (leaseStringBuffer c1 64).1.bid ≠
        (leaseStringBuffer (leaseStringBuffer c1 64).2 4096).1.bid ∧
      (leaseStringBuffer (returnStringBuffer c0 ⟨5, 8⟩) 32).1.bid =
        (⟨5, 8⟩ : StringBuffer).bid) :=
  ⟨⟨by decide, by decide⟩,
    leaseStringBuffer_slot c1 c0 ⟨0, 16⟩ ⟨5, 8⟩ 64 4096 32 (by decide)
      (by decide)⟩

/-- C6: the runtime options and the dump options of a context are
mutually independent state: mutating the value behind
`getVPackOptions()` leaves the value behind `getVPackOptionsForDump()`
entirely unchanged — every flag included — and symmetrically. -/
theorem vpackOptionsIndependent (c : TransactionContext) (o : VPackOptions) :
    getVPackOptionsForDump (setVPackOptions c o) = getVPackOptionsForDump c ∧
    getVPackOptions (setVPackOptionsForDump c o) = getVPackOptions c :=
  ⟨rfl, rfl⟩

/-- C7: `storeTransactionResult` records the final outcome (id, failure
flag) exactly once per context: the first call stores the pair, and a
second call on the same context is reported immediately as a contract
violation while the stored outcome stays exactly what the first call
recorded — never a silent overwrite. -/
theorem storeTransactionResult_once (c ca cb : TransactionContext)
    (t₁ t₂ : Nat) (f₁ f₂ : Bool)
    (h0 : c.transactionResult = none)
    (h1 : storeTransactionResult c t₁ f₁ = Except.ok ca)
    (h2 : storeTransactionResult ca t₂ f₂ = Except.ok cb) :
    ca.transactionResult = some (t₁, f₁) ∧
    cb.transactionResult = some (t₁, f₁) ∧
    cb.violationReported = true := by
  have h1e : storeTransactionResult c t₁ f₁ =
      Except.ok { c with transactionResult := some (t₁, f₁) } := by
    unfold storeTransactionResult
    rw [h0]
  rw [h1e] at h1
  have hca := Except.ok.inj h1
  subst hca
  have h2e :
      storeTransactionResult
          { c with transactionResult := some (t₁, f₁) } t₂ f₂ =
        Except.ok
          { c with
              transactionResult := some (t₁, f₁)
              violationReported := true } := rfl
  rw [h2e] at h2
  have hcb := Except.ok.inj h2
  subst hcb
  exact ⟨rfl, rfl, rfl⟩

theorem storeTransactionResult_once_wit :
    (c0.transactionResult = none ∧
      storeTransactionResult c0 9 true = Except.ok c0a ∧
      storeTransactionResult c0a 4 false = Except.ok c0b) ∧
    (c0a.transactionResult = some (9, true) ∧
      c0b.transactionResult = some (9, true) ∧
      c0b.violationReported = true) :=
  ⟨⟨rfl, rfl, rfl⟩,
    storeTransactionResult_once c0 c0a c0b 9 4 true false rfl rfl rfl⟩

/-- C9: `storeTransactionResult` is total and non-throwing, matching its
`noexcept` declaration (`src/RestServer/AvocadoServer.h` line 577): for
every context state — a repeated call on the same context included — and
every id and failure flag, the call completes with an ordinary result and
never uses the error channel; misuse reporting never takes the form of a
thrown error. -/
theorem storeTransactionResult_noThrow (c : TransactionContext) (t : Nat)
    (f : Bool) : (storeTransactionResult c t f).isOk = true := by
  unfold storeTransactionResult
  cases c.transactionResult <;> rfl

/-- C10: the database identity bound at construction is immutable for the
context's whole lifetime: the accessor returns exactly the handle supplied
to the constructor, and every state-changing public operation —
`orderDitch`, `leaseBuilder`, `returnBuilder`, `leaseStringBuffer`,
`returnStringBuffer`, mutation of either options value, and
`storeTransactionResult` — leaves the database-identity field unchanged
(the remaining operations `ditch`, `getVPackOptions`,
`getVPackOptionsForDump` are read-only accessors and return no context at
all). -/
theorem vocbase_immutable (i db k t n : Nat) (g : DitchGlobal)
    (c : TransactionContext) (b f : Bool) (sb : StringBuffer)
    (o : VPackOptions) :
    (createContext i db).vocbase = db ∧
    (orderDitch g c k b).2.1.vocbase = c.vocbase ∧
    (leaseBuilder c).2.vocbase = c.vocbase ∧
    (returnBuilder c n).vocbase = c.vocbase ∧
    (leaseStringBuffer c n).2.vocbase = c.vocbase ∧
    (returnStringBuffer c sb).vocbase = c.vocbase ∧
    (setVPackOptions c o).vocbase = c.vocbase ∧
    (setVPackOptionsForDump c o).vocbase = c.vocbase ∧
    Except.map TransactionContext.vocbase (storeTransactionResult c t f) =
      Except.ok c.vocbase := by
  refine ⟨rfl, ?_, ?_, rfl, ?_, rfl, rfl, rfl, ?_⟩
  · unfold orderDitch
    cases c.ditches.lookup k with
    | some d => rfl
    | none => cases b <;> rfl
  · unfold leaseBuilder
    cases c.builders <;> rfl
  · unfold leaseStringBuffer
    cases c.stringBuffer <;> rfl
  · unfold storeTransactionResult
    cases c.transactionResult <;> rfl

/-- C8 counterexample: the claim that `createCustomTypeHandler` always
returns a handler as a value the caller fully owns outright is false on
the code: the declaration (`src/RestServer/AvocadoServer.h` lines
540-543) returns a raw `velocypack::CustomTypeHandler*` and documents it
as "factory to create a custom type handler, not managed". -/
theorem createCustomTypeHandler_notOwned :
    createCustomTypeHandler_return ≠ HandlerReturn.ownedValue := by
  decide

/-- C8 (amended): `createCustomTypeHandler(database, resolver)` hands its
product to the caller as a raw, unmanaged, nullable pointer whose
lifetime the caller must manage — not as a fully owned value; the spec's
own design note records that it "should become" an owned value. -/
theorem createCustomTypeHandler_unmanaged :
    createCustomTypeHandler_return = HandlerReturn.unmanagedPointer := rfl
